import Mathlib

/-!
Verification of the healthion-api user-registration subsystem.

The development shallowly embeds the relevant parts of the repository:

* the `user` table (`app/models/user.py`, migration `001_init.py`) as a list
  of rows, with identifiers modelled as `Nat`;
* `UserService.get_or_create_user` and
  `UserService.register_with_open_wearables`
  (`app/services/user_service.py`);
* the atomic conditional update
  `UPDATE user SET open_wearables_user_id = :v WHERE id = :id AND
   open_wearables_user_id IS NULL` issued by the coordinator,
  together with its rowcount;
* `OpenWearablesClient.create_user` / `find_user_by_external_id`
  (`app/services/open_wearables_client.py`), with the upstream platform
  state as a list of accounts;
* `WearablesService.register_user` (`app/services/wearables_service.py`);
* the relevant tail of `get_current_user`
  (`app/utils/auth_dependencies.py`).

The outcome of the upstream HTTP call is passed as an explicit parameter
(`UpstreamOutcome`), and fallible operations return `Except`.
-/

namespace Healthion

/-- One row of the `user` table (`app/models/user.py`, `001_init.py`):
`id` is the primary key, `auth0_id` and `email` are unique,
`open_wearables_user_id` is nullable. -/
structure User where
  id : Nat
  auth0_id : String
  email : String
  open_wearables_user_id : Option Nat
  deriving Repr, DecidableEq

/-- The local datastore: the `user` table as a list of rows. -/
abbrev Db := List User

/-- Primary-key lookup (`WHERE id = :id`); this also models
`db_session.refresh(user)`, which re-reads the row by primary key. -/
def find_by_id (db : Db) (uid : Nat) : Option User :=
  db.find? fun u => u.id == uid

/-- Modelled from the spec: `UserRepository.get_user_by_auth0_id` (the
repository module is not under `src/`); per spec section 4.1 it looks the
User row up by its unique `external_identity_id` (`auth0_id`). -/
def get_user_by_auth0_id (db : Db) (a : String) : Option User :=
  db.find? fun u => u.auth0_id == a

/-- The `WHERE` predicate of the coordinator's conditional update
(`user_service.py` lines 77-82):
`User.id == user.id AND User.open_wearables_user_id IS NULL`. -/
def rowMatches (uid : Nat) (u : User) : Bool :=
  u.id == uid && u.open_wearables_user_id.isNone

/-- Effect of the conditional update on a single row. -/
def updRow (uid owId : Nat) (u : User) : User :=
  if rowMatches uid u then { u with open_wearables_user_id := some owId } else u

/-- The single atomic statement
`UPDATE user SET open_wearables_user_id = :owId
 WHERE id = :uid AND open_wearables_user_id IS NULL`
(`user_service.py` lines 77-84).  Returns the new table together with the
rowcount (`result.rowcount`): the number of rows the predicate matched. -/
def conditional_update (db : Db) (uid owId : Nat) : Db × Nat :=
  (db.map (updRow uid owId), (db.filter (rowMatches uid)).length)

/-- Error conditions of the subsystem, following the taxonomy of spec
section 7.  `invalidInput` is the `ValueError` of `get_or_create_user`;
`upstreamUnavailable` is a failure of the upstream create-or-find call
(network error, non-success status, configuration error);
`persistenceFailure` is a datastore failure. -/
inductive RegError where
  | invalidInput
  | upstreamUnavailable
  | persistenceFailure
  deriving Repr, DecidableEq

/-- Outcome of the upstream create-or-find HTTP call as observed by the
coordinator: either an upstream account id, or a raised exception. -/
inductive UpstreamOutcome where
  | ok (owId : Nat)
  | failure
  deriving Repr, DecidableEq

/-- `UserService.register_with_open_wearables` (`user_service.py` 42-99):
fast-path return if `open_wearables_user_id` is already set on the passed
(possibly stale) row object; otherwise consume the upstream call's outcome,
re-raise on failure, else run the atomic conditional update, commit, and
refresh the row by primary key before returning it. -/
def register_with_open_wearables (db : Db) (user : User) (up : UpstreamOutcome) :
    Db × Except RegError User :=
  if user.open_wearables_user_id.isSome then
    (db, .ok user)
  else
    match up with
    | .failure => (db, .error .upstreamUnavailable)
    | .ok owId =>
      let db1 := (conditional_update db user.id owId).1
      (db1,
       match find_by_id db1 user.id with
       | some u => .ok u
       | none => .error .persistenceFailure)

/-- Modelled from the spec: `AppService.update` (the generic CRUD service
module is not under `src/`); per spec section 4.1 the email update writes
the supplied email to the row with the given primary key. -/
def update_email (db : Db) (uid : Nat) (e : String) : Db :=
  db.map fun w => if w.id == uid then { w with email := e } else w

/-- Modelled from the spec: primary-key generation of `AppService.create`
(not under `src/`) — a fresh `id`, distinct from every id in the table. -/
def freshId (db : Db) : Nat :=
  (db.map User.id).foldr max 0 + 1

/-- `UserService.get_or_create_user` (`user_service.py` 23-40): reject empty
`auth0_id` or `email` with `ValueError`; if a row with this `auth0_id`
exists, update its email when it differs and return the (refreshed) row,
otherwise return it unchanged; if no row exists, create one. -/
def get_or_create_user (db : Db) (auth0_id email : String) :
    Db × Except RegError User :=
  if auth0_id.isEmpty || email.isEmpty then
    (db, .error .invalidInput)
  else
    match get_user_by_auth0_id db auth0_id with
    | some user =>
      if user.email != email then
        let db1 := update_email db user.id email
        (db1,
         match find_by_id db1 user.id with
         | some u => .ok u
         | none => .error .persistenceFailure)
      else
        (db, .ok user)
    | none =>
      let u : User := ⟨freshId db, auth0_id, email, none⟩
      (db ++ [u], .ok u)

/-- `RegisterOpenWearablesResponse` (`app/schemas/wearables.py`). -/
structure RegisterOpenWearablesResponse where
  open_wearables_user_id : Option Nat
  already_registered : Bool
  deriving Repr, DecidableEq

/-- `WearablesService.register_user` (`wearables_service.py` 76-92):
short-circuit with `already_registered = true` when the linkage is set,
otherwise delegate to `register_with_open_wearables`. -/
def register_user (db : Db) (user : User) (up : UpstreamOutcome) :
    Db × Except RegError RegisterOpenWearablesResponse :=
  match user.open_wearables_user_id with
  | some v => (db, .ok ⟨some v, true⟩)
  | none =>
    let r := register_with_open_wearables db user up
    match r.2 with
    | .ok u => (r.1, .ok ⟨u.open_wearables_user_id, false⟩)
    | .error e => (r.1, .error e)

/-- The identity payload `get_current_user` returns
(`app/schemas/user.py` `UserInfo`, fields used by the claims). -/
structure UserInfo where
  user_id : Nat
  auth0_id : String
  email : String
  deriving Repr, DecidableEq

/-- Tail of `get_current_user` (`auth_dependencies.py` 35-61), after the
bearer token verified to the pair `(auth0_id, email)`: resolve the local
user, then — if it has no upstream linkage — attempt registration, catching
every exception (`OpenWearablesConfigurationError` and the generic
`except Exception` arm) and falling back to the unregistered user object,
and finally build the `UserInfo`. -/
def get_current_user (db : Db) (auth0_id email : String) (up : UpstreamOutcome) :
    Db × Except RegError UserInfo :=
  let r := get_or_create_user db auth0_id email
  match r.2 with
  | .error e => (r.1, .error e)
  | .ok user =>
    if user.open_wearables_user_id.isSome then
      (r.1, .ok ⟨user.id, auth0_id, user.email⟩)
    else
      let s := register_with_open_wearables r.1 user up
      match s.2 with
      | .ok u => (s.1, .ok ⟨u.id, auth0_id, u.email⟩)
      | .error _ => (s.1, .ok ⟨user.id, auth0_id, user.email⟩)

/-- One account of the upstream Open Wearables platform. -/
structure OWAccount where
  id : Nat
  external_user_id : String
  email : String
  deriving Repr, DecidableEq

/-- The upstream platform's user store. -/
abbrev OWState := List OWAccount

/-- `OpenWearablesClient.find_user_by_external_id`
(`open_wearables_client.py` 61-85):
`GET /api/v1/users?external_user_id=...&limit=1`, first item or none. -/
def find_user_by_external_id (ow : OWState) (ext : String) : Option OWAccount :=
  ow.find? fun a => a.external_user_id == ext

/-- `OpenWearablesClient.create_user` (`open_wearables_client.py` 114-151):
under the per-email lock, look the account up by `external_user_id` and
return it if it exists; otherwise POST a create.  The POST's effect is
modelled from the spec (section 6): the upstream platform creates exactly
one new account for this `external_user_id` and returns it; `newId` is the
id the platform generates for it. -/
def create_user (ow : OWState) (ext email : String) (newId : Nat) :
    OWState × OWAccount :=
  match find_user_by_external_id ow ext with
  | some existing => (ow, existing)
  | none => (ow ++ [⟨newId, ext, email⟩], ⟨newId, ext, email⟩)

/-- One caller's registration attempt for the concurrency trace: the caller
holds the stale row object `stale` (read while the linkage was null), its
upstream call returned `owId`, and its conditional update now executes
atomically against the current table.  Recorded outcome: the rowcount of
the caller's conditional update, and the `open_wearables_user_id` the
caller returns after its refresh. -/
def one_registration (stale : User) (owId : Nat) (db : Db) :
    Db × (Nat × Option Nat) :=
  let res := register_with_open_wearables db stale (.ok owId)
  let cnt := (conditional_update db stale.id owId).2
  (res.1,
   (cnt, match res.2 with
         | .ok u => u.open_wearables_user_id
         | .error _ => none))

/-- `n` concurrent callers for the same user, serialised at the atomic
conditional update (the only ordering contract, spec section 5): each
caller's update-and-refresh executes against the table left by the
previous one.  Returns the final table and each caller's recorded
outcome, in execution order. -/
def concurrent_registrations (stale : User) (owId : Nat) :
    Nat → Db → Db × List (Nat × Option Nat)
  | 0, db => (db, [])
  | n + 1, db =>
    let r := one_registration stale owId db
    let rest := concurrent_registrations stale owId n r.1
    (rest.1, r.2 :: rest.2)

/-- An arbitrary sequence of Registration Coordinator calls, each with its
own (possibly stale) row object and upstream outcome, applied in order to
the table. -/
def run_registrations (db : Db) : List (User × UpstreamOutcome) → Db
  | [] => db
  | op :: rest => run_registrations (register_with_open_wearables db op.1 op.2).1 rest

/-! ## Helper lemmas -/

theorem updRow_id (t w : Nat) (u : User) : (updRow t w u).id = u.id := by
  unfold updRow
  split <;> rfl

theorem find_by_id_map (db : Db) (f : User → User) (uid : Nat)
    (hf : ∀ u, (f u).id = u.id) :
    find_by_id (db.map f) uid = (find_by_id db uid).map f := by
  unfold find_by_id
  rw [List.find?_map]
  have h : ((fun u : User => u.id == uid) ∘ f) = fun u : User => u.id == uid := by
    funext u
    show ((f u).id == uid) = (u.id == uid)
    rw [hf]
  rw [h]

theorem find_by_id_mem {db : Db} {uid : Nat} {u : User}
    (h : find_by_id db uid = some u) : u ∈ db ∧ u.id = uid := by
  unfold find_by_id at h
  refine ⟨List.mem_of_find?_eq_some h, ?_⟩
  simpa using List.find?_some h

theorem find_by_id_of_mem {db : Db} {u : User}
    (hnd : (db.map User.id).Nodup) (hu : u ∈ db) :
    find_by_id db u.id = some u := by
  cases h : find_by_id db u.id with
  | none =>
    exfalso
    unfold find_by_id at h
    have := List.find?_eq_none.mp h u hu
    simp at this
  | some w =>
    obtain ⟨hwmem, hwid⟩ := find_by_id_mem h
    rw [List.inj_on_of_nodup_map hnd hwmem hu hwid]

theorem filter_rowMatches_of_none {db : Db} {uid : Nat} {u : User}
    (hnd : (db.map User.id).Nodup) (hfind : find_by_id db uid = some u)
    (hnone : u.open_wearables_user_id = none) :
    db.filter (rowMatches uid) = [u] := by
  induction db with
  | nil => simp [find_by_id] at hfind
  | cons a tl ih =>
    rw [List.map_cons, List.nodup_cons] at hnd
    obtain ⟨ha, hnd2⟩ := hnd
    by_cases hpa : a.id = uid
    · have hbeq : (a.id == uid) = true := by simpa using hpa
      have hau : a = u := by
        unfold find_by_id at hfind
        rw [List.find?_cons, hbeq] at hfind
        simpa using hfind
      subst hau
      have htl : tl.filter (rowMatches uid) = [] := by
        rw [List.filter_eq_nil_iff]
        intro x hx
        have hxid : x.id ≠ uid := by
          intro hxe
          exact ha (by rw [hpa, ← hxe]; exact List.mem_map_of_mem User.id hx)
        simp [rowMatches, hxid]
      rw [List.filter_cons]
      simp [rowMatches, hpa, hnone, htl]
    · have hbeq : (a.id == uid) = false := by simpa using hpa
      have hfind2 : find_by_id tl uid = some u := by
        unfold find_by_id at hfind ⊢
        rw [List.find?_cons, hbeq] at hfind
        exact hfind
      rw [List.filter_cons]
      simp [rowMatches, hbeq, ih hnd2 hfind2]

theorem rowMatches_false_of_set {db : Db} {uid : Nat} {u : User} {v : Nat}
    (hnd : (db.map User.id).Nodup) (hfind : find_by_id db uid = some u)
    (hset : u.open_wearables_user_id = some v) :
    ∀ x ∈ db, rowMatches uid x = false := by
  intro x hx
  obtain ⟨humem, huid⟩ := find_by_id_mem hfind
  by_cases hxid : x.id = uid
  · have hxu : x = u :=
      List.inj_on_of_nodup_map hnd hx humem (hxid.trans huid.symm)
    subst hxu
    simp [rowMatches, hset]
  · simp [rowMatches, hxid]

theorem conditional_update_of_set {db : Db} {uid : Nat} {u : User} {v : Nat}
    (owId : Nat)
    (hnd : (db.map User.id).Nodup) (hfind : find_by_id db uid = some u)
    (hset : u.open_wearables_user_id = some v) :
    conditional_update db uid owId = (db, 0) := by
  have hall := rowMatches_false_of_set hnd hfind hset
  have h1 : db.map (updRow uid owId) = db := by
    have h : db.map (updRow uid owId) = db.map id := by
      apply List.map_congr_left
      intro a haa
      simp [updRow, hall a haa]
    rw [h, List.map_id]
  have h2 : db.filter (rowMatches uid) = [] := by
    rw [List.filter_eq_nil_iff]
    intro a haa
    simp [hall a haa]
  simp [conditional_update, h1, h2]

theorem conditional_update_of_none {db : Db} {uid : Nat} {u : User}
    (owId : Nat)
    (hnd : (db.map User.id).Nodup) (hfind : find_by_id db uid = some u)
    (hnone : u.open_wearables_user_id = none) :
    conditional_update db uid owId = (db.map (updRow uid owId), 1)
      ∧ find_by_id (db.map (updRow uid owId)) uid
          = some { u with open_wearables_user_id := some owId } := by
  obtain ⟨humem, huid⟩ := find_by_id_mem hfind
  have hcnt : (db.filter (rowMatches uid)).length = 1 := by
    rw [filter_rowMatches_of_none hnd hfind hnone]
    rfl
  have hupd : updRow uid owId u = { u with open_wearables_user_id := some owId } := by
    simp [updRow, rowMatches, huid, hnone]
  refine ⟨by simp [conditional_update, hcnt], ?_⟩
  rw [find_by_id_map db (updRow uid owId) uid (updRow_id uid owId), hfind]
  simp [hupd]

theorem nodup_map_updRow {db : Db} (uid owId : Nat)
    (hnd : (db.map User.id).Nodup) :
    ((db.map (updRow uid owId)).map User.id).Nodup := by
  rw [List.map_map]
  have h : (User.id ∘ updRow uid owId) = User.id := by
    funext u
    exact updRow_id uid owId u
  rw [h]
  exact hnd

theorem register_preserves_set {db : Db} {uid : Nat} {u : User} {v : Nat}
    (w : User) (up : UpstreamOutcome)
    (hfind : find_by_id db uid = some u)
    (hset : u.open_wearables_user_id = some v) :
    find_by_id (register_with_open_wearables db w up).1 uid = some u := by
  unfold register_with_open_wearables
  by_cases hw : w.open_wearables_user_id.isSome
  · simp [hw, hfind]
  · cases up with
    | failure => simpa [hw] using hfind
    | ok owId =>
      simp only [hw, if_false, Bool.false_eq_true, conditional_update]
      rw [find_by_id_map db (updRow w.id owId) uid (updRow_id w.id owId), hfind]
      simp [updRow, rowMatches, hset]

theorem one_registration_of_set {db : Db} {stale u : User} {v : Nat}
    (owId : Nat)
    (hstale : stale.open_wearables_user_id = none)
    (hnd : (db.map User.id).Nodup)
    (hfind : find_by_id db stale.id = some u)
    (hset : u.open_wearables_user_id = some v) :
    one_registration stale owId db = (db, (0, some v)) := by
  have hcu := conditional_update_of_set owId hnd hfind hset
  simp [one_registration, register_with_open_wearables, hstale, hcu, hfind, hset]

theorem one_registration_of_none {db : Db} {u : User} (owId : Nat)
    (hnd : (db.map User.id).Nodup)
    (hfind : find_by_id db u.id = some u)
    (hnone : u.open_wearables_user_id = none) :
    one_registration u owId db = (db.map (updRow u.id owId), (1, some owId)) := by
  obtain ⟨hcu, hfind2⟩ := conditional_update_of_none owId hnd hfind hnone
  simp [one_registration, register_with_open_wearables, hnone, hcu, hfind2]

theorem concurrent_registrations_of_set {stale u : User} {v : Nat} (owId : Nat)
    (hstale : stale.open_wearables_user_id = none) :
    ∀ (m : Nat) (db : Db), (db.map User.id).Nodup →
      find_by_id db stale.id = some u →
      u.open_wearables_user_id = some v →
      concurrent_registrations stale owId m db
        = (db, List.replicate m (0, some v)) := by
  intro m
  induction m with
  | zero =>
    intro db _ _ _
    simp [concurrent_registrations]
  | succ n ih =>
    intro db hnd hfind hset
    have h1 := one_registration_of_set owId hstale hnd hfind hset
    simp only [concurrent_registrations, h1]
    rw [ih db hnd hfind hset]
    simp [List.replicate_succ]

/-! ## The claims -/

/-- Claim C1: for a User row whose `open_wearables_user_id` is null, `n + 2`
concurrent Registration Coordinator calls (each holding the stale null row
and the same upstream id, their atomic conditional updates serialised by the
datastore) produce exactly one conditional update affecting one row and
`n + 1` affecting zero rows, and every call returns the same final
`open_wearables_user_id`. -/
theorem claim_c1_concurrent_round (db : Db) (u : User) (owId n : Nat)
    (hnd : (db.map User.id).Nodup)
    (hfind : find_by_id db u.id = some u)
    (hnone : u.open_wearables_user_id = none) :
    (concurrent_registrations u owId (n + 2) db).2
      = (1, some owId) :: List.replicate (n + 1) (0, some owId) := by
  have h1 := one_registration_of_none owId hnd hfind hnone
  obtain ⟨hcu, hfind2⟩ := conditional_update_of_none owId hnd hfind hnone
  have hnd2 := nodup_map_updRow u.id owId hnd
  have hrest := concurrent_registrations_of_set owId hnone (n + 1)
    (db.map (updRow u.id owId)) hnd2 hfind2 rfl
  have step : (concurrent_registrations u owId (n + 2) db).2
      = (one_registration u owId db).2 ::
        (concurrent_registrations u owId (n + 1) (one_registration u owId db).1).2 := rfl
  rw [step, h1]
  simp [hrest]

theorem claim_c1_witness :
    ((([⟨1, "auth0|abc", "a@x.com", none⟩] : Db).map User.id).Nodup
      ∧ find_by_id [⟨1, "auth0|abc", "a@x.com", none⟩] 1
          = some ⟨1, "auth0|abc", "a@x.com", none⟩)
    ∧ (concurrent_registrations ⟨1, "auth0|abc", "a@x.com", none⟩ 42 3
        [⟨1, "auth0|abc", "a@x.com", none⟩]).2
      = (1, some 42) :: List.replicate 2 (0, some 42) :=
  ⟨⟨by decide, by decide⟩,
   claim_c1_concurrent_round [⟨1, "auth0|abc", "a@x.com", none⟩]
     ⟨1, "auth0|abc", "a@x.com", none⟩ 42 1 (by decide) (by decide) rfl⟩

/-- Claim C2: once a row's `open_wearables_user_id` is non-null it never
changes: under any sequence of Registration Coordinator calls (arbitrary
stale row objects and upstream outcomes) the row is left exactly as it is,
because the only write is the conditional update guarded by the
`IS NULL` predicate. -/
theorem claim_c2_linkage_immutable (db : Db) (uid : Nat) (u : User) (v : Nat)
    (ops : List (User × UpstreamOutcome))
    (hfind : find_by_id db uid = some u)
    (hset : u.open_wearables_user_id = some v) :
    find_by_id (run_registrations db ops) uid = some u := by
  induction ops generalizing db with
  | nil => simpa [run_registrations] using hfind
  | cons op rest ih =>
    simp only [run_registrations]
    exact ih _ (register_preserves_set op.1 op.2 hfind hset)

theorem claim_c2_witness :
    find_by_id
      (run_registrations [⟨1, "a", "e", some 7⟩]
        [(⟨1, "a", "e", none⟩, .ok 9), (⟨1, "a", "e", none⟩, .failure)]) 1
      = some ⟨1, "a", "e", some 7⟩ :=
  claim_c2_linkage_immutable [⟨1, "a", "e", some 7⟩] 1 ⟨1, "a", "e", some 7⟩ 7
    [(⟨1, "a", "e", none⟩, .ok 9), (⟨1, "a", "e", none⟩, .failure)]
    (by decide) rfl

/-- Claim C3: if the upstream create-or-find call fails, the Registration
Coordinator propagates the failure (`UpstreamUnavailable`) and mutates no
local state: the table is returned unchanged, so the row is unchanged and
its `open_wearables_user_id` is still null. -/
theorem claim_c3_upstream_failure (db : Db) (user : User)
    (hnull : user.open_wearables_user_id = none) :
    register_with_open_wearables db user .failure
      = (db, .error .upstreamUnavailable) := by
  simp [register_with_open_wearables, hnull]

theorem claim_c3_witness :
    register_with_open_wearables [⟨1, "a", "e", none⟩] ⟨1, "a", "e", none⟩ .failure
      = ([⟨1, "a", "e", none⟩], .error .upstreamUnavailable) :=
  claim_c3_upstream_failure [⟨1, "a", "e", none⟩] ⟨1, "a", "e", none⟩ rfl

/-- Claim C4: when the conditional update affects zero rows (the caller's
stale row was null but another caller already set the linkage in the
table), the call is not an error: it returns `.ok` with the re-read row
carrying the winner's authoritative id, the table is unchanged, and the
rowcount of the caller's conditional update is `0`. -/
theorem claim_c4_zero_rows_noop (db : Db) (stale w : User) (v owId : Nat)
    (hnd : (db.map User.id).Nodup)
    (hstale : stale.open_wearables_user_id = none)
    (hfind : find_by_id db stale.id = some w)
    (hset : w.open_wearables_user_id = some v) :
    register_with_open_wearables db stale (.ok owId) = (db, .ok w)
      ∧ (conditional_update db stale.id owId).2 = 0 := by
  have hcu := conditional_update_of_set owId hnd hfind hset
  refine ⟨?_, by rw [hcu]⟩
  simp [register_with_open_wearables, hstale, hcu, hfind]

theorem claim_c4_witness :
    (register_with_open_wearables [⟨1, "a", "e", some 7⟩] ⟨1, "a", "e", none⟩ (.ok 42)
        = ([⟨1, "a", "e", some 7⟩], .ok ⟨1, "a", "e", some 7⟩))
      ∧ (conditional_update [⟨1, "a", "e", some 7⟩] 1 42).2 = 0 :=
  claim_c4_zero_rows_noop [⟨1, "a", "e", some 7⟩] ⟨1, "a", "e", none⟩
    ⟨1, "a", "e", some 7⟩ 7 42 (by decide) rfl (by decide) rfl

/-- Claim C5: for a User whose `open_wearables_user_id` is already set, the
Registration Coordinator returns the existing row immediately and
unchanged, the table is untouched, and the result does not depend on the
upstream outcome at all (no upstream call is issued); likewise
`WearablesService.register_user` short-circuits with
`already_registered = true`. -/
theorem claim_c5_fast_path (db : Db) (user : User) (v : Nat)
    (up : UpstreamOutcome)
    (hset : user.open_wearables_user_id = some v) :
    register_with_open_wearables db user up = (db, .ok user)
      ∧ register_user db user up = (db, .ok ⟨some v, true⟩) := by
  refine ⟨by simp [register_with_open_wearables, hset], ?_⟩
  simp [register_user, hset]

theorem claim_c5_witness :
    (register_with_open_wearables [⟨1, "a", "e", some 7⟩] ⟨1, "a", "e", some 7⟩ .failure
        = ([⟨1, "a", "e", some 7⟩], .ok ⟨1, "a", "e", some 7⟩))
      ∧ register_user [⟨1, "a", "e", some 7⟩] ⟨1, "a", "e", some 7⟩ .failure
        = ([⟨1, "a", "e", some 7⟩], .ok ⟨some 7, true⟩) :=
  claim_c5_fast_path [⟨1, "a", "e", some 7⟩] ⟨1, "a", "e", some 7⟩ 7 .failure rfl

/-- Claim C6: for an existing User found by `auth0_id` whose stored email
differs from the supplied one, the Identity Resolver writes the new email
to that row (same primary key) and returns the refreshed row: same `id`,
new `email`, all other fields unchanged. -/
theorem claim_c6_email_drift (db : Db) (a e : String) (u : User)
    (ha : a.isEmpty = false) (he : e.isEmpty = false)
    (hnd : (db.map User.id).Nodup)
    (hfind : get_user_by_auth0_id db a = some u)
    (hne : u.email ≠ e) :
    get_or_create_user db a e
      = (update_email db u.id e, .ok { u with email := e }) := by
  have hb : (u.email != e) = true := bne_iff_ne.mpr hne
  have humem : u ∈ db := List.mem_of_find?_eq_some hfind
  have hf : ∀ x : User,
      ((if x.id == u.id then { x with email := e } else x) : User).id = x.id := by
    intro x
    split <;> rfl
  have hfmap : find_by_id (update_email db u.id e) u.id
      = some { u with email := e } := by
    unfold update_email
    rw [find_by_id_map db _ u.id hf, find_by_id_of_mem hnd humem]
    simp
  simp [get_or_create_user, ha, he, hfind, hb, hfmap]

theorem claim_c6_witness :
    get_or_create_user [⟨1, "abc", "a@x.com", none⟩] "abc" "b@x.com"
      = (update_email [⟨1, "abc", "a@x.com", none⟩] 1 "b@x.com",
         .ok ⟨1, "abc", "b@x.com", none⟩) :=
  claim_c6_email_drift [⟨1, "abc", "a@x.com", none⟩] "abc" "b@x.com"
    ⟨1, "abc", "a@x.com", none⟩ rfl rfl (by decide) (by decide) (by decide)

/-- Claim C7: a call to the Identity Resolver with an empty
`external_identity_id` or an empty `email` fails with the `InvalidInput`
condition (`ValueError`) and leaves the table unchanged: no row is created
or updated. -/
theorem claim_c7_invalid_input (db : Db) (a e : String)
    (h : a.isEmpty = true ∨ e.isEmpty = true) :
    get_or_create_user db a e = (db, .error .invalidInput) := by
  rcases h with h | h <;> simp [get_or_create_user, h]

theorem claim_c7_witness :
    get_or_create_user [⟨1, "abc", "a@x.com", none⟩] "" "b@x.com"
      = ([⟨1, "abc", "a@x.com", none⟩], .error .invalidInput) :=
  claim_c7_invalid_input [⟨1, "abc", "a@x.com", none⟩] "" "b@x.com" (.inl rfl)

/-- Claim C8: for an existing User found by `auth0_id` whose stored email
equals the supplied one, the Identity Resolver returns that row unchanged
and performs no write — the table after the call is the table before. -/
theorem claim_c8_match_no_write (db : Db) (a e : String) (u : User)
    (ha : a.isEmpty = false) (he : e.isEmpty = false)
    (hfind : get_user_by_auth0_id db a = some u)
    (heq : u.email = e) :
    get_or_create_user db a e = (db, .ok u) := by
  have hb : (u.email != e) = false := by simp [heq]
  simp [get_or_create_user, ha, he, hfind, hb]

theorem claim_c8_witness :
    get_or_create_user [⟨1, "abc", "a@x.com", some 7⟩] "abc" "a@x.com"
      = ([⟨1, "abc", "a@x.com", some 7⟩], .ok ⟨1, "abc", "a@x.com", some 7⟩) :=
  claim_c8_match_no_write [⟨1, "abc", "a@x.com", some 7⟩] "abc" "a@x.com"
    ⟨1, "abc", "a@x.com", some 7⟩ rfl rfl (by decide) rfl

/-- Claim C9: the upstream client's `create_user` is
create-or-return-existing: if an account with this `external_user_id`
exists it is returned and the upstream state is unchanged (no account
created); otherwise exactly one new account is created and returned. -/
theorem claim_c9_create_or_find (ow : OWState) (ext e : String) (newId : Nat)
    (a : OWAccount) :
    (find_user_by_external_id ow ext = some a →
        create_user ow ext e newId = (ow, a))
      ∧ (find_user_by_external_id ow ext = none →
        create_user ow ext e newId
          = (ow ++ [⟨newId, ext, e⟩], ⟨newId, ext, e⟩)) := by
  constructor <;> intro h <;> simp [create_user, h]

theorem claim_c9_witness :
    create_user [⟨5, "abc", "a@x.com"⟩] "abc" "b@x.com" 9
        = ([⟨5, "abc", "a@x.com"⟩], ⟨5, "abc", "a@x.com"⟩)
      ∧ create_user [] "abc" "b@x.com" 9
        = ([⟨9, "abc", "b@x.com"⟩], ⟨9, "abc", "b@x.com"⟩) :=
  ⟨(claim_c9_create_or_find [⟨5, "abc", "a@x.com"⟩] "abc" "b@x.com" 9
      ⟨5, "abc", "a@x.com"⟩).1 (by decide),
   (claim_c9_create_or_find [] "abc" "b@x.com" 9 ⟨0, "", ""⟩).2 rfl⟩

/-- Claim C10: for a verified request, `get_current_user` returns a
`UserInfo` even when registration fails: whenever
`register_with_open_wearables` raises any error, the exception is caught
and the `UserInfo` is built from the still-unregistered user; in
particular for an upstream failure the table is the one left by the
Identity Resolver, unchanged by the failed registration. -/
theorem claim_c10_registration_error_caught (db db1 : Db)
    (a e : String) (user : User) (up : UpstreamOutcome) (err : RegError)
    (hresolve : get_or_create_user db a e = (db1, .ok user))
    (hnull : user.open_wearables_user_id = none)
    (hfail : (register_with_open_wearables db1 user up).2 = .error err) :
    get_current_user db a e up
      = ((register_with_open_wearables db1 user up).1,
          .ok ⟨user.id, a, user.email⟩)
      ∧ get_current_user db a e .failure = (db1, .ok ⟨user.id, a, user.email⟩) := by
  constructor
  · simp [get_current_user, hresolve, hnull, hfail]
  · have h3 : register_with_open_wearables db1 user .failure
        = (db1, .error .upstreamUnavailable) := by
      simp [register_with_open_wearables, hnull]
    simp [get_current_user, hresolve, hnull, h3]

theorem claim_c10_witness :
    get_current_user [] "a" "b" .failure
        = ((register_with_open_wearables [⟨1, "a", "b", none⟩]
              ⟨1, "a", "b", none⟩ .failure).1,
            .ok ⟨1, "a", "b"⟩)
      ∧ get_current_user [] "a" "b" .failure
        = ([⟨1, "a", "b", none⟩], .ok ⟨1, "a", "b"⟩) :=
  claim_c10_registration_error_caught [] [⟨1, "a", "b", none⟩] "a" "b"
    ⟨1, "a", "b", none⟩ .failure .upstreamUnavailable rfl rfl rfl

end Healthion
